import Mathlib

/-
Shallow embedding of `src/environments/lcls/fel/observables.py` from
slaclab/Badger-Plugins.

Modelling conventions:
- A Python float is `Option ℚ`: `none` models NaN, `some q` a finite value.
- Exceptions are `Except PyErr`.  The `interface` capability object is a
  structure of two fallible functions, `get_value` and `get_values`.
- The external statistics helpers (`badger.stats.percent_80`, `np.mean`,
  `np.median`, `np.std`) are collaborators outside this repository and are
  abstracted as a `StatFns` record of fallible functions; a helper may raise
  or return NaN (for example on an empty input).
- `time.sleep` has no observable return value, but it raises on a negative,
  NaN or non-coercible argument; each top-level operation therefore returns
  a pair: the sleep outcome (duration slept, or the error `time.sleep`
  raised) and the overall outcome of the call.
-/

/-- Python float value: `none` models NaN, `some q` a finite value as a rational. -/
abbrev PyFloat := Option ℚ

/-- Exceptions crossing the boundaries modelled here.  `badgerEnvObsError`
is `badger.errors.BadgerEnvObsError` from observables.py line 6/96/155. -/
inductive PyErr where
  | badgerEnvObsError
  | typeError
  | valueError
  | keyError
  | other (msg : String)
deriving DecidableEq

/-- Value returned by the control-system interface: a scalar or a sample series. -/
inductive PyVal where
  | float (x : PyFloat)
  | array (xs : List PyFloat)
deriving DecidableEq

/-- The duck-typed `interface` capability of observables.py: `get_value` for one
channel and `get_values` for a batch (returning a name-to-value mapping,
modelled as an association list). -/
structure Interface where
  get_value : String → Except PyErr PyVal
  get_values : List String → Except PyErr (List (String × PyVal))

/-- The statistics record built at lines 85-91 and 100-106 of observables.py. -/
structure FelStats where
  gas_p80 : PyVal
  gas_mean : PyVal
  gas_median : PyVal
  gas_std : PyVal
  loss_p80 : PyVal
deriving DecidableEq

/-- External statistics helpers used at lines 78-83 and 151 of observables.py:
`badger.stats.percent_80`, `np.mean`, `np.median`, `np.std`.  They live outside
this repository, so they are abstract here. -/
structure StatFns where
  percent_80 : List ℚ → Except PyErr PyFloat
  mean : List ℚ → Except PyErr PyFloat
  median : List ℚ → Except PyErr PyFloat
  std : List ℚ → Except PyErr PyFloat

/-- Beam-rate channel name, observables.py lines 54 and 135. -/
def rateChannel : String := "EVNT:SYS0:1:LCLSBEAMRATE"

/-- Intensity channel selection, observables.py lines 66-69: the hard-x-ray
template with `fel_channel` interpolated, or the fixed soft-x-ray channel. -/
def gasChannel (hxr : Bool) (fel_channel : String) : String :=
  if hxr then "GDET:FEE1:" ++ fel_channel ++ ":ENRCHSTCUHBR"
  else "EM1K0:GMD:HPS:milliJoulesPerPulseHSTCUSBR"

/-- Soft-x-ray scalar fallback channel, observables.py line 98. -/
def sxrScalarChannel : String := "EM1K0:GMD:HPS:milliJoulesPerPulse"

/-- Python slice `xs[s:]`: a negative start counts from the end and clamps at 0;
a non-negative start clamps at the length. -/
def pySliceFrom (xs : List α) (s : Int) : List α :=
  xs.drop (if s < 0 then (xs.length + s).toNat else s.toNat)

/-- Lines 74-76 of observables.py: the validity mask
`~(isnan intensity ∨ isnan loss)` applied to both series, as the list of
index-aligned pairs at which neither entry is NaN. -/
def validPairs (intensity loss : List PyFloat) : List (ℚ × ℚ) :=
  (intensity.zip loss).filterMap fun p =>
    match p.1, p.2 with
    | some a, some b => some (a, b)
    | _, _ => none

/-- Lines 78-93 of observables.py: the five statistic computations, in source
order, over the valid intensity and loss values, assembled into the record. -/
def statsOver (s : StatFns) (intensity_valid loss_valid : List ℚ) :
    Except PyErr FelStats := do
  let gas_p80 ← s.percent_80 intensity_valid
  let gas_mean ← s.mean intensity_valid
  let gas_median ← s.median intensity_valid
  let gas_std ← s.std intensity_valid
  let loss_p80 ← s.percent_80 loss_valid
  return ⟨.float gas_p80, .float gas_mean, .float gas_median, .float gas_std,
    .float loss_p80⟩

/-- Lines 53-64 (and identically 134-145) of observables.py: query the beam
rate; on success the nap time is `points / (rate * 1.0)`, a zero rate raises
ZeroDivisionError inside the `try` (nap time falls back to 1), any rate-query
failure also yields nap time 1; then `time.sleep(nap_time)` runs outside the
`try`: it raises on a negative duration, a NaN duration, or an array duration
(the size-1 numpy array coercion to float is not modelled). -/
def napTime (iface : Interface) (points : Int) : Except PyErr ℚ :=
  match iface.get_value rateChannel with
  | .error _ => .ok 1
  | .ok (.float (some r)) =>
      if r = 0 then .ok 1
      else if (points : ℚ) / r < 0 then .error .valueError
      else .ok ((points : ℚ) / r)
  | .ok (.float none) => .error .valueError
  | .ok (.array _) => .error .typeError

/-- Lines 70-93 of observables.py: the body of the `try` block.  Fetch both
series in one batched call, take the last `points` entries of each, filter by
the validity mask, and reduce with the statistics helpers.  A missing key is
KeyError; slicing a scalar is TypeError; numpy raises on a length mismatch
between the two masks (length-1 broadcasting is not modelled). -/
def tryStats (s : StatFns) (PV_gas loss_pv : String) (points : Int)
    (iface : Interface) : Except PyErr FelStats :=
  match iface.get_values [PV_gas, loss_pv] with
  | .error e => .error e
  | .ok d =>
    match d.lookup PV_gas, d.lookup loss_pv with
    | some (.array ir), some (.array lr) =>
      let intensity_raw := pySliceFrom ir (-points)
      let loss_raw := pySliceFrom lr (-points)
      if intensity_raw.length = loss_raw.length then
        let vp := validPairs intensity_raw loss_raw
        statsOver s (vp.map Prod.fst) (vp.map Prod.snd)
      else .error .valueError
    | none, _ => .error .keyError
    | _, none => .error .keyError
    | _, _ => .error .typeError

/-- Lines 66-108 of observables.py: select the intensity channel, run the
`try` body, and on any failure either raise `BadgerEnvObsError` (hard x-ray)
or read the scalar fallback channel and replicate it into the record with
zero standard deviation and zero loss percentile (soft x-ray).  An exception
from the fallback read itself is not caught. -/
def intensityLossBody (s : StatFns) (hxr : Bool) (points : Int)
    (loss_pv fel_channel : String) (iface : Interface) : Except PyErr FelStats :=
  match tryStats s (gasChannel hxr fel_channel) loss_pv points iface with
  | .ok st => .ok st
  | .error _ =>
    if hxr then .error .badgerEnvObsError
    else
      match iface.get_value sxrScalarChannel with
      | .error e => .error e
      | .ok g => .ok ⟨g, g, g, .float (some 0), .float (some 0)⟩

/-- Lines 10-108 of observables.py, `get_intensity_and_loss`.  The first
component is the sleep outcome (the duration slept, or the error raised by
`time.sleep`), the second the overall outcome of the call. -/
def get_intensity_and_loss (s : StatFns) (hxr : Bool) (points : Int)
    (loss_pv fel_channel : String) (iface : Interface) :
    Except PyErr ℚ × Except PyErr FelStats :=
  match napTime iface points with
  | .error e => (.error e, .error e)
  | .ok t => (.ok t, intensityLossBody s hxr points loss_pv fel_channel iface)

/-- Lines 147-153 of observables.py: the body of the `try` block of `get_loss`.
Fetch the loss series with `get_value`, take the last `points` entries, drop
NaN entries, reduce with `percent_80`.  Slicing a scalar is TypeError. -/
def tryLoss (s : StatFns) (points : Int) (loss_pv : String)
    (iface : Interface) : Except PyErr PyFloat :=
  match iface.get_value loss_pv with
  | .error e => .error e
  | .ok (.float _) => .error .typeError
  | .ok (.array xs) =>
      let loss_raw := pySliceFrom xs (-points)
      let loss_valid := loss_raw.filterMap id
      s.percent_80 loss_valid

/-- Lines 147-155 of observables.py: any failure of the `try` body raises
`BadgerEnvObsError`; there is no scalar fallback. -/
def lossBody (s : StatFns) (points : Int) (loss_pv : String)
    (iface : Interface) : Except PyErr PyFloat :=
  match tryLoss s points loss_pv iface with
  | .ok v => .ok v
  | .error _ => .error .badgerEnvObsError

/-- Lines 111-155 of observables.py, `get_loss`.  The first component is the
sleep outcome, the second the overall outcome of the call. -/
def get_loss (s : StatFns) (points : Int) (loss_pv : String)
    (iface : Interface) : Except PyErr ℚ × Except PyErr PyFloat :=
  match napTime iface points with
  | .error e => (.error e, .error e)
  | .ok t => (.ok t, lossBody s points loss_pv iface)

/-- Modelled from the spec: `is_pulse_intensity_observed` is code of this
repository not present under `src/`; per the spec it returns true iff at
least one name in the input collection starts with the literal
pulse-intensity naming convention.  Starting-with is modelled on the
character lists of the strings. -/
def is_pulse_intensity_observed (observable_names : List String) : Bool :=
  observable_names.any fun n => "pulse_intensity".data.isPrefixOf n.data

/-
Concrete fixtures used by the witnesses below: statistics helpers that
return the first value they are handed, and small interfaces.
-/

/-- Test double for the statistics helpers: each returns the head of its
input (NaN on an empty input), so which list a helper was applied to is
visible in the result. -/
def exampleStats : StatFns where
  percent_80 := fun xs => .ok xs.head?
  mean := fun xs => .ok xs.head?
  median := fun xs => .ok xs.head?
  std := fun xs => .ok xs.head?

/-- Interface whose every query fails. -/
def downIface : Interface where
  get_value := fun _ => .error (.other "down")
  get_values := fun _ => .error (.other "down")

/-- Interface where the batched fetch fails, the beam-rate query fails, and
only the soft-x-ray scalar fallback channel answers (with 7). -/
def fallbackIface : Interface where
  get_value := fun n =>
    if n = sxrScalarChannel then .ok (.float (some 7))
    else .error (.other "down")
  get_values := fun _ => .error (.other "down")

/-- Interface answering every scalar query with rate 2 and failing the
batched fetch. -/
def rateTwoIface : Interface where
  get_value := fun _ => .ok (.float (some 2))
  get_values := fun _ => .error (.other "down")

/-- Interface answering the beam-rate query with 0 and failing everything
else. -/
def zeroRateIface : Interface where
  get_value := fun n =>
    if n = rateChannel then .ok (.float (some 0))
    else .error (.other "down")
  get_values := fun _ => .error (.other "down")

/-- Interface for the C1 example: intensity series [1, NaN, 3, 4] under key
"G" and loss series [0.1, 0.2, NaN, 0.4] under key "L". -/
def c1Iface : Interface where
  get_value := fun _ => .error (.other "unused")
  get_values := fun _ => .ok
    [("G", .array [some 1, none, some 3, some 4]),
     ("L", .array [some (1/10), some (1/5), none, some (2/5)])]

/-- Interface for the C6 counterexample: two-point series under the
hard-x-ray channel for fel_channel "F" and under key "L". -/
def c6Iface : Interface where
  get_value := fun _ => .error (.other "down")
  get_values := fun _ => .ok
    [("GDET:FEE1:F:ENRCHSTCUHBR", .array [some 1, some 2]),
     ("L", .array [some 3, some 4])]

/-
Claim theorems.
-/

/-- Claim C1: for every pair of fetched series, the five statistics are
computed only over the indices at which neither the intensity value nor the
loss value is NaN; in particular, for intensity [1, NaN, 3, 4] and loss
[0.1, 0.2, NaN, 0.4] with points = 4, the statistics are computed over
intensity [1, 4] and loss [0.1, 0.4] only. -/
theorem c1_stats_only_over_valid :
    (∀ (s : StatFns) (pv lv : String) (points : Int) (iface : Interface)
      (d : List (String × PyVal)) (ir lr : List PyFloat),
      iface.get_values [pv, lv] = .ok d →
      d.lookup pv = some (.array ir) →
      d.lookup lv = some (.array lr) →
      (pySliceFrom ir (-points)).length = (pySliceFrom lr (-points)).length →
      tryStats s pv lv points iface =
        statsOver s
          ((validPairs (pySliceFrom ir (-points)) (pySliceFrom lr (-points))).map Prod.fst)
          ((validPairs (pySliceFrom ir (-points)) (pySliceFrom lr (-points))).map Prod.snd)) ∧
    (∀ s : StatFns,
      tryStats s "G" "L" 4 c1Iface = statsOver s [1, 4] [1/10, 2/5]) := by
  constructor
  · intro s pv lv points iface d ir lr h1 h2 h3 h4
    simp only [tryStats, h1, h2, h3, if_pos h4]
  · intro s
    rfl

/-- Witness for C1 at the example input with the head-returning statistics
double: the record is built from the heads of [1, 4] and [1/10, 2/5]. -/
theorem c1_stats_only_over_valid_witness :
    tryStats exampleStats "G" "L" 4 c1Iface =
      .ok ⟨.float (some 1), .float (some 1), .float (some 1), .float (some 1),
        .float (some (1/10))⟩ :=
  (c1_stats_only_over_valid.1 exampleStats "G" "L" 4 c1Iface
    [("G", .array [some 1, none, some 3, some 4]),
     ("L", .array [some (1/10), some (1/5), none, some (2/5)])]
    [some 1, none, some 3, some 4]
    [some (1/10), some (1/5), none, some (2/5)]
    rfl rfl rfl rfl).trans rfl

/-- Claim C2: on the hard-x-ray path, any failure of the fetch/filter/reduce
step makes get_intensity_and_loss raise BadgerEnvObsError; no value is
returned and no scalar fallback is attempted. -/
theorem c2_hxr_failure_raises (s : StatFns) (points : Int)
    (loss_pv fel_channel : String) (iface : Interface) (t : ℚ) (e : PyErr)
    (hnap : napTime iface points = .ok t)
    (hfail : tryStats s (gasChannel true fel_channel) loss_pv points iface = .error e) :
    get_intensity_and_loss s true points loss_pv fel_channel iface =
      (.ok t, .error .badgerEnvObsError) := by
  simp only [get_intensity_and_loss, hnap, intensityLossBody, hfail, if_pos]

/-- Witness for C2: with every fetch failing, the hard-x-ray call raises
BadgerEnvObsError. -/
theorem c2_hxr_failure_raises_witness :
    get_intensity_and_loss exampleStats true 0 "L" "F" fallbackIface =
      (.ok 1, .error .badgerEnvObsError) :=
  c2_hxr_failure_raises exampleStats 0 "L" "F" fallbackIface 1 (.other "down") rfl rfl

/-- Claim C3: on the soft-x-ray path, any failure of the fetch/filter/reduce
step makes get_intensity_and_loss read one scalar v from the fixed scalar
channel and return a record with p80 = mean = median = v and std = loss_p80
= 0. -/
theorem c3_sxr_fallback_record (s : StatFns) (points : Int)
    (loss_pv fel_channel : String) (iface : Interface) (t : ℚ) (e : PyErr)
    (v : PyFloat)
    (hnap : napTime iface points = .ok t)
    (hfail : tryStats s (gasChannel false fel_channel) loss_pv points iface = .error e)
    (hscalar : iface.get_value sxrScalarChannel = .ok (.float v)) :
    get_intensity_and_loss s false points loss_pv fel_channel iface =
      (.ok t, .ok ⟨.float v, .float v, .float v, .float (some 0), .float (some 0)⟩) := by
  simp only [get_intensity_and_loss, hnap, intensityLossBody, hfail, if_neg, hscalar,
    Bool.false_eq_true, not_false_eq_true]

/-- Witness for C3: the scalar fallback channel answers 7 and the record is
(7, 7, 7, 0, 0). -/
theorem c3_sxr_fallback_record_witness :
    get_intensity_and_loss exampleStats false 0 "L" "F" fallbackIface =
      (.ok 1, .ok ⟨.float (some 7), .float (some 7), .float (some 7),
        .float (some 0), .float (some 0)⟩) :=
  c3_sxr_fallback_record exampleStats 0 "L" "F" fallbackIface 1 (.other "down")
    (some 7) rfl rfl rfl

/-- Claim C4: any failure of the fetch/filter/reduce step of get_loss raises
BadgerEnvObsError; there is no scalar fallback. -/
theorem c4_loss_failure_raises (s : StatFns) (points : Int) (loss_pv : String)
    (iface : Interface) (t : ℚ) (e : PyErr)
    (hnap : napTime iface points = .ok t)
    (hfail : tryLoss s points loss_pv iface = .error e) :
    get_loss s points loss_pv iface = (.ok t, .error .badgerEnvObsError) := by
  simp only [get_loss, hnap, lossBody, hfail]

/-- Witness for C4: with the loss fetch failing, get_loss raises
BadgerEnvObsError. -/
theorem c4_loss_failure_raises_witness :
    get_loss exampleStats 0 "L" fallbackIface = (.ok 1, .error .badgerEnvObsError) :=
  c4_loss_failure_raises exampleStats 0 "L" fallbackIface 1 (.other "down") rfl rfl

/-- Claim C5: in both operations, a beam-rate query succeeding with a scalar
rate r (nonzero, nonnegative nap) gives wait duration exactly points / r, and
a beam-rate query that raises gives wait duration exactly 1 regardless of
points, with the rate failure never reaching the caller (the outcome is
exactly the fetch body outcome). -/
theorem c5_nap_time (s : StatFns) (hxr : Bool) (points : Int)
    (loss_pv fel_channel : String) (if1 if2 : Interface) (r : ℚ)
    (h1 : if1.get_value rateChannel = .ok (.float (some r)))
    (hr : r ≠ 0) (hnn : 0 ≤ (points : ℚ) / r)
    (h2 : ∃ e, if2.get_value rateChannel = .error e) :
    (get_intensity_and_loss s hxr points loss_pv fel_channel if1).1 =
      .ok ((points : ℚ) / r) ∧
    (get_loss s points loss_pv if1).1 = .ok ((points : ℚ) / r) ∧
    get_intensity_and_loss s hxr points loss_pv fel_channel if2 =
      (.ok 1, intensityLossBody s hxr points loss_pv fel_channel if2) ∧
    get_loss s points loss_pv if2 = (.ok 1, lossBody s points loss_pv if2) := by
  obtain ⟨e, he⟩ := h2
  have hnap1 : napTime if1 points = .ok ((points : ℚ) / r) := by
    simp only [napTime, h1, if_neg hr, if_neg (not_lt.2 hnn)]
  have hnap2 : napTime if2 points = .ok 1 := by
    simp only [napTime, he]
  refine ⟨?_, ?_, ?_, ?_⟩ <;>
    simp only [get_intensity_and_loss, get_loss, hnap1, hnap2]

/-- Witness for C5 at points = 0, rate 2 on the succeeding interface and a
failing rate query on the other. -/
theorem c5_nap_time_witness :
    (get_intensity_and_loss exampleStats true 0 "L" "F" rateTwoIface).1 =
      .ok (((0 : Int) : ℚ) / 2) ∧
    (get_loss exampleStats 0 "L" rateTwoIface).1 = .ok (((0 : Int) : ℚ) / 2) ∧
    get_intensity_and_loss exampleStats true 0 "L" "F" downIface =
      (.ok 1, intensityLossBody exampleStats true 0 "L" "F" downIface) ∧
    get_loss exampleStats 0 "L" downIface =
      (.ok 1, lossBody exampleStats 0 "L" downIface) :=
  c5_nap_time exampleStats true 0 "L" "F" rateTwoIface downIface 2 rfl
    (by decide) (by simp) ⟨.other "down", rfl⟩

/-- Claim C6 counterexample: with point_count = 0 the selection taken from
each fetched series is the whole (non-empty) series, not an empty one, and
the call succeeds instead of propagating a downstream failure. -/
theorem c6_counterexample :
    pySliceFrom ([some 1, some 2] : List PyFloat) (-(0 : Int)) = [some 1, some 2] ∧
    ([some 1, some 2] : List PyFloat) ≠ [] ∧
    get_intensity_and_loss exampleStats true 0 "L" "F" c6Iface =
      (.ok 1, .ok ⟨.float (some 1), .float (some 1), .float (some 1),
        .float (some 1), .float (some 3)⟩) :=
  ⟨rfl, by decide, rfl⟩

/-- Claim C6 amended: for a non-positive point_count p the selection taken
from each fetched series is the series with its first |p| entries removed —
in particular the entire series when p = 0 — so no empty selection and no
downstream failure follow from the point count alone. -/
theorem c6_nonpositive_points_slice (xs : List PyFloat) (points : Int)
    (h : points ≤ 0) :
    pySliceFrom xs (-points) = xs.drop points.natAbs ∧
    (points = 0 → pySliceFrom xs (-points) = xs) := by
  have hn : ¬(-points < 0) := by omega
  constructor
  · unfold pySliceFrom
    rw [if_neg hn]
    congr 1
    omega
  · rintro rfl
    simp [pySliceFrom]

/-- Witness for the amended C6 at points = 0 on a two-point series. -/
theorem c6_nonpositive_points_slice_witness :
    pySliceFrom ([some 1, some 2] : List PyFloat) (-(0 : Int)) =
      ([some 1, some 2] : List PyFloat).drop (0 : Int).natAbs :=
  (c6_nonpositive_points_slice [some 1, some 2] 0 (by decide)).1

/-- Claim C7: the fixed channel names are exactly the four literals of the
spec, and get_intensity_and_loss queries no channel beyond the beam-rate
channel, the batched intensity/loss fetch, and the soft-x-ray scalar
fallback: two interfaces agreeing on those three queries yield identical
calls. -/
theorem c7_channel_names (s : StatFns) (hxr : Bool) (points : Int)
    (loss_pv fel_channel : String) (if1 if2 : Interface)
    (hrate : if1.get_value rateChannel = if2.get_value rateChannel)
    (hbatch : if1.get_values [gasChannel hxr fel_channel, loss_pv] =
      if2.get_values [gasChannel hxr fel_channel, loss_pv])
    (hscalar : if1.get_value sxrScalarChannel = if2.get_value sxrScalarChannel) :
    gasChannel true fel_channel = "GDET:FEE1:" ++ fel_channel ++ ":ENRCHSTCUHBR" ∧
    gasChannel false fel_channel = "EM1K0:GMD:HPS:milliJoulesPerPulseHSTCUSBR" ∧
    rateChannel = "EVNT:SYS0:1:LCLSBEAMRATE" ∧
    sxrScalarChannel = "EM1K0:GMD:HPS:milliJoulesPerPulse" ∧
    get_intensity_and_loss s hxr points loss_pv fel_channel if1 =
      get_intensity_and_loss s hxr points loss_pv fel_channel if2 := by
  refine ⟨rfl, rfl, rfl, rfl, ?_⟩
  unfold get_intensity_and_loss napTime intensityLossBody tryStats
  rw [hrate, hbatch, hscalar]

/-- Witness for C7 with the two interfaces taken equal. -/
theorem c7_channel_names_witness :
    gasChannel true "F" = "GDET:FEE1:" ++ "F" ++ ":ENRCHSTCUHBR" ∧
    gasChannel false "F" = "EM1K0:GMD:HPS:milliJoulesPerPulseHSTCUSBR" ∧
    rateChannel = "EVNT:SYS0:1:LCLSBEAMRATE" ∧
    sxrScalarChannel = "EM1K0:GMD:HPS:milliJoulesPerPulse" ∧
    get_intensity_and_loss exampleStats true 0 "L" "F" downIface =
      get_intensity_and_loss exampleStats true 0 "L" "F" downIface :=
  c7_channel_names exampleStats true 0 "L" "F" downIface downIface rfl rfl rfl

/-- Claim C8: is_pulse_intensity_observed returns true iff at least one name
in the input starts with the pulse-intensity naming convention; it is false
on the empty input, true on [pulse_intensity_x, loss_y] and false on
[loss_y]; as a total function it is pure with no failure modes. -/
theorem c8_pulse_intensity_observed (names : List String) :
    (is_pulse_intensity_observed names = true ↔
      ∃ n ∈ names, "pulse_intensity".data.isPrefixOf n.data = true) ∧
    is_pulse_intensity_observed [] = false ∧
    is_pulse_intensity_observed ["pulse_intensity_x", "loss_y"] = true ∧
    is_pulse_intensity_observed ["loss_y"] = false := by
  refine ⟨?_, rfl, by decide, by decide⟩
  simp [is_pulse_intensity_observed, List.any_eq_true]

/-- Claim C9: on the soft-x-ray path, if the fetch/filter/reduce step fails
and the scalar fallback read itself raises, that exception propagates to the
caller unchanged — it is not converted into BadgerEnvObsError. -/
theorem c9_fallback_error_propagates (s : StatFns) (points : Int)
    (loss_pv fel_channel : String) (iface : Interface) (t : ℚ) (e e2 : PyErr)
    (hnap : napTime iface points = .ok t)
    (hfail : tryStats s (gasChannel false fel_channel) loss_pv points iface = .error e)
    (hscalar : iface.get_value sxrScalarChannel = .error e2) :
    get_intensity_and_loss s false points loss_pv fel_channel iface =
      (.ok t, .error e2) := by
  simp only [get_intensity_and_loss, hnap, intensityLossBody, hfail, if_neg, hscalar,
    Bool.false_eq_true, not_false_eq_true]

/-- Witness for C9: the fallback read raises "down" and exactly that error —
not BadgerEnvObsError — is the outcome of the call. -/
theorem c9_fallback_error_propagates_witness :
    get_intensity_and_loss exampleStats false 0 "L" "F" downIface =
      (.ok 1, .error (.other "down")) :=
  c9_fallback_error_propagates exampleStats 0 "L" "F" downIface 1
    (.other "down") (.other "down") rfl rfl rfl

/-- Claim C10: a beam-rate query that succeeds with the scalar 0 is handled
like a failed rate query: the wait duration is exactly 1 in both operations
and no error from the rate handling reaches the caller (the outcome is
exactly the fetch body outcome). -/
theorem c10_zero_rate (s : StatFns) (hxr : Bool) (points : Int)
    (loss_pv fel_channel : String) (iface : Interface)
    (h0 : iface.get_value rateChannel = .ok (.float (some 0))) :
    napTime iface points = .ok 1 ∧
    get_intensity_and_loss s hxr points loss_pv fel_channel iface =
      (.ok 1, intensityLossBody s hxr points loss_pv fel_channel iface) ∧
    get_loss s points loss_pv iface = (.ok 1, lossBody s points loss_pv iface) := by
  have hnap : napTime iface points = .ok 1 := by
    simp [napTime, h0]
  exact ⟨hnap, by simp only [get_intensity_and_loss, hnap],
    by simp only [get_loss, hnap]⟩

/-- Witness for C10 on an interface whose beam-rate channel reads 0. -/
theorem c10_zero_rate_witness :
    napTime zeroRateIface 0 = .ok 1 ∧
    get_intensity_and_loss exampleStats true 0 "L" "F" zeroRateIface =
      (.ok 1, intensityLossBody exampleStats true 0 "L" "F" zeroRateIface) ∧
    get_loss exampleStats 0 "L" zeroRateIface =
      (.ok 1, lossBody exampleStats 0 "L" zeroRateIface) :=
  c10_zero_rate exampleStats true 0 "L" "F" zeroRateIface rfl
